import Mathlib

/-!
Verification model of the MAAS rack boot-image import pipeline
(`src/provisioningserver/import_images/boot_resources.py`).

The pure content of the Python module is translated directly: string
computations (`tgt_entry`, `compose_targets_conf`) become Lean string
functions, and the filesystem-effecting orchestration (`import_images`,
`meta_contains`, `update_targets_conf`, …) becomes explicit state passing
over a `World` record together with a trace of observable events.
Collaborators that live outside the sources provided here
(`list_boot_images`, `download_all_boot_resources`,
`cleanup_snapshots_and_cache`, `service_monitor`) are modelled from the
specification's contracts; each such definition says so in its doc comment.
-/

namespace MaasImport

/-- An element of the list returned by `list_boot_images` for a snapshot,
restricted to the keys `compose_targets_conf` reads
(`osystem`, `architecture`, `subarchitecture`, `release`, `label`).
`list_boot_images` itself is not among the provided sources; per the spec
it reports the images discovered in the snapshot tree. -/
structure BootImage where
  osystem : String
  architecture : String
  subarchitecture : String
  release : String
  label : String
deriving DecidableEq, Repr

/-- The 5-tuple `(osystem, arch, subarch, release, label)` that
`compose_targets_conf` adds to its `entries` set. -/
structure TgtId where
  osystem : String
  arch : String
  subarch : String
  release : String
  label : String
deriving DecidableEq, Repr

/-- The tuple of identifying fields extracted from one `list_boot_images`
item, as in the first loop of `compose_targets_conf`. -/
def BootImage.tgtId (i : BootImage) : TgtId :=
  ⟨i.osystem, i.architecture, i.subarchitecture, i.release, i.label⟩

/-- The tuple viewed as a list of its components' character lists.  Python
compares 5-tuples of strings lexicographically, and compares each string
lexicographically by code point; that is exactly the lexicographic order
on `List (List Char)` with `Char` ordered by code point. -/
def TgtId.key (t : TgtId) : List (List Char) :=
  [t.osystem.toList, t.arch.toList, t.subarch.toList,
   t.release.toList, t.label.toList]

theorem TgtId.key_injective : Function.Injective TgtId.key := by
  intro ⟨a1, a2, a3, a4, a5⟩ ⟨b1, b2, b3, b4, b5⟩ h
  simp only [TgtId.key, List.cons.injEq, and_true, String.toList_inj] at h
  obtain ⟨h1, h2, h3, h4, h5⟩ := h
  subst h1; subst h2; subst h3; subst h4; subst h5
  rfl

/-- The order `sorted` uses on the entry tuples. -/
def tgtIdLe (a b : TgtId) : Prop := a.key ≤ b.key

instance : DecidableRel tgtIdLe := fun a b =>
  inferInstanceAs (Decidable (a.key ≤ b.key))

instance : IsTotal TgtId tgtIdLe := ⟨fun a b => le_total a.key b.key⟩

instance : IsTrans TgtId tgtIdLe := ⟨fun _ _ _ h1 h2 => le_trans h1 h2⟩

instance : IsAntisymm TgtId tgtIdLe :=
  ⟨fun _ _ h1 h2 => TgtId.key_injective (le_antisymm h1 h2)⟩

/-- `sorted(entries)` where `entries` is the Python set of tuples collected
from the images list: the distinct tuples in ascending tuple order. -/
def sortedTgtIds (images : List BootImage) : List TgtId :=
  ((images.map BootImage.tgtId).dedup).insertionSort tgtIdLe

theorem mem_sortedTgtIds {images : List BootImage} {t : TgtId} :
    t ∈ sortedTgtIds images ↔ t ∈ images.map BootImage.tgtId := by
  unfold sortedTgtIds
  rw [(List.perm_insertionSort tgtIdLe _).mem_iff, List.mem_dedup]

theorem sortedTgtIds_sorted (images : List BootImage) :
    List.Sorted tgtIdLe (sortedTgtIds images) :=
  List.sorted_insertionSort tgtIdLe _

theorem sortedTgtIds_nodup (images : List BootImage) :
    (sortedTgtIds images).Nodup :=
  (List.perm_insertionSort tgtIdLe _).nodup_iff.mpr
    (List.nodup_dedup _)

/-- The sorted distinct tuple list is canonical: it depends only on which
tuples occur, not on order or multiplicity of the image listings. -/
theorem sortedTgtIds_eq_of_mem_iff {l1 l2 : List BootImage}
    (h : ∀ t : TgtId, t ∈ l1.map BootImage.tgtId ↔ t ∈ l2.map BootImage.tgtId) :
    sortedTgtIds l1 = sortedTgtIds l2 := by
  apply List.eq_of_perm_of_sorted _ (sortedTgtIds_sorted l1) (sortedTgtIds_sorted l2)
  rw [List.perm_ext_iff_of_nodup (sortedTgtIds_nodup l1) (sortedTgtIds_nodup l2)]
  intro t
  rw [mem_sortedTgtIds, mem_sortedTgtIds]
  exact h t

/-- `tgt_entry` from `boot_resources.py`: the text of one tgt target
stanza.  The stanza marks the target read-only (`readonly 1`) and
shareable across hardlinked images (`allow-in-use yes`). -/
def tgt_entry (osystem arch subarch release label image : String) : String :=
  let target_name :=
    "ephemeral-" ++ osystem ++ "-" ++ arch ++ "-" ++ subarch ++ "-" ++
      release ++ "-" ++ label
  "<target iqn.2004-05.com.ubuntu:maas:" ++ target_name ++ ">\n" ++
  "    readonly 1\n" ++
  "    allow-in-use yes\n" ++
  "    backing-store \"" ++ image ++ "\"\n" ++
  "    driver iscsi\n" ++
  "</target>\n"

/-- `os.path.join` for the relative component case used here. -/
def pathJoin (a b : String) : String := a ++ "/" ++ b

/-- The `base_path` for a tuple in `compose_targets_conf`. -/
def tgtBasePath (snapshot_path : String) (t : TgtId) : String :=
  pathJoin (pathJoin (pathJoin (pathJoin (pathJoin
    snapshot_path t.osystem) t.arch) t.subarch) t.release) t.label

/-- `compose_targets_conf` from `boot_resources.py`, with the filesystem
scan abstracted into `images` (what `list_boot_images` reports) and
`isfile` (which paths `os.path.isfile` affirms).  The Python function
returns the UTF-8 encoding of this string. -/
def compose_targets_conf (snapshot_path : String) (images : List BootImage)
    (isfile : String → Bool) : String :=
  let entries := sortedTgtIds images
  let tgt_entries := entries.foldl (fun acc t =>
    let base_path := tgtBasePath snapshot_path t
    let root_image := pathJoin base_path "root-image"
    let acc1 :=
      if isfile root_image then
        acc ++ [tgt_entry t.osystem t.arch t.subarch t.release t.label root_image]
      else acc
    let squashfs_image := pathJoin base_path "squashfs"
    if isfile squashfs_image then
      acc1 ++ [tgt_entry t.osystem t.arch t.subarch t.release t.label squashfs_image]
    else acc1) []
  String.join tgt_entries

/-- The entries contributed by a single tuple: one per image kind
(`root-image`, `squashfs`) whose backing file exists. -/
def tupleEntries (snapshot_path : String) (isfile : String → Bool)
    (t : TgtId) : List String :=
  let base_path := tgtBasePath snapshot_path t
  let root_image := pathJoin base_path "root-image"
  let squashfs_image := pathJoin base_path "squashfs"
  (if isfile root_image then
    [tgt_entry t.osystem t.arch t.subarch t.release t.label root_image]
  else []) ++
  (if isfile squashfs_image then
    [tgt_entry t.osystem t.arch t.subarch t.release t.label squashfs_image]
  else [])

theorem compose_foldl_eq (snapshot_path : String) (isfile : String → Bool) :
    ∀ (ts : List TgtId) (acc : List String),
      ts.foldl (fun acc t =>
        let base_path := tgtBasePath snapshot_path t
        let root_image := pathJoin base_path "root-image"
        let acc1 :=
          if isfile root_image then
            acc ++ [tgt_entry t.osystem t.arch t.subarch t.release t.label root_image]
          else acc
        let squashfs_image := pathJoin base_path "squashfs"
        if isfile squashfs_image then
          acc1 ++ [tgt_entry t.osystem t.arch t.subarch t.release t.label squashfs_image]
        else acc1) acc
      = acc ++ (ts.map (tupleEntries snapshot_path isfile)).flatten
  | [], acc => by simp
  | t :: ts, acc => by
    rw [List.foldl_cons, compose_foldl_eq snapshot_path isfile ts]
    simp only [List.map_cons, List.flatten, tupleEntries]
    by_cases hr : isfile (pathJoin (tgtBasePath snapshot_path t) "root-image") <;>
      by_cases hs : isfile (pathJoin (tgtBasePath snapshot_path t) "squashfs") <;>
      simp [hr, hs]

/-- `compose_targets_conf` is the concatenation, over the sorted distinct
tuples, of the per-tuple entries. -/
theorem compose_targets_conf_eq (snapshot_path : String)
    (images : List BootImage) (isfile : String → Bool) :
    compose_targets_conf snapshot_path images isfile =
      String.join (((sortedTgtIds images).map
        (tupleEntries snapshot_path isfile)).flatten) := by
  unfold compose_targets_conf
  dsimp only
  rw [compose_foldl_eq]
  simp

/-- The `maas.meta` file of a snapshot: its text content and its
modification time (`os.utime` updates the latter). -/
structure MetaFile where
  content : String
  mtime : Nat
deriving DecidableEq, Repr

/-- The state of the storage root owned by the pipeline: the snapshot
directories, the `current` symlink, each snapshot's `maas.meta` file,
which snapshots have a `maas.tgt` file, the shared cache entries and
which snapshot references which cache entry. -/
structure World where
  snapshots : List String
  current : Option String
  metas : List (String × MetaFile)
  targets : List String
  cache : List String
  cacheRefs : List (String × String)
deriving DecidableEq, Repr

/-- The file `storage/current/maas.meta`, if the `current` pointer exists
and the snapshot it names holds a `maas.meta` file. -/
def currentMetaFile (w : World) : Option MetaFile :=
  match w.current with
  | none => none
  | some s => w.metas.lookup s

/-- The `os.utime(current_meta, None)` side effect of `meta_contains`. -/
def touchCurrentMeta (w : World) (now : Nat) : World :=
  match w.current with
  | none => w
  | some s =>
    { w with metas :=
        w.metas.map (fun p => if p.1 = s then (p.1, ⟨p.2.content, now⟩) else p) }

/-- `meta_contains` from `boot_resources.py`: does `current/maas.meta`
match `content`?  When the file exists its timestamp is first updated to
now; the returned flag is `exists and content == read_text_file(...)`. -/
def meta_contains (w : World) (content : String) (now : Nat) : Bool × World :=
  match currentMetaFile w with
  | none => (false, w)
  | some mf => (content == mf.content, touchCurrentMeta w now)

/-- Update-or-append in an association list, the effect of an
`atomic_write` (write then rename) to an association-modelled directory. -/
def setAssoc {β : Type} (l : List (String × β)) (k : String) (v : β) :
    List (String × β) :=
  if l.any (fun p => p.1 == k) then
    l.map (fun p => if p.1 == k then (k, v) else p)
  else l ++ [(k, v)]

/-- `write_snapshot_metadata`: atomically write `<snapshot>/maas.meta`. -/
def write_snapshot_metadata (w : World) (snapshot content : String)
    (now : Nat) : World :=
  { w with metas := setAssoc w.metas snapshot ⟨content, now⟩ }

/-- `write_targets_conf`: atomically write `<snapshot>/maas.tgt` (the
content is `compose_targets_conf` of the snapshot; the world model tracks
only the file's presence). -/
def write_targets_conf (w : World) (snapshot : String) : World :=
  { w with targets :=
      if w.targets.contains snapshot then w.targets
      else w.targets ++ [snapshot] }

/-- `update_current_symlink`: `atomic_symlink(latest_snapshot,
storage/current)` — a single atomic replacement of the pointer. -/
def update_current_symlink (w : World) (snapshot : String) : World :=
  { w with current := some snapshot }

/-- Modelled from the spec: `cleanup_snapshots_and_cache`
(`provisioningserver.import_images.cleanup`) is not among the provided
sources.  Spec §4.4: never deletes the snapshot referenced by the current
pointer, never deletes a cache entry referenced by a remaining snapshot,
deletes everything else. -/
def cleanup_snapshots_and_cache (w : World) : World :=
  let keep := w.snapshots.filter (fun s => w.current == some s)
  let refs := w.cacheRefs.filter (fun p => keep.contains p.2)
  { snapshots := keep
    current := w.current
    metas := w.metas.filter (fun p => keep.contains p.1)
    targets := w.targets.filter (fun s => keep.contains s)
    cache := w.cache.filter (fun e => refs.any (fun p => p.1 == e))
    cacheRefs := refs }

/-- The observable outcome of one `update_targets_conf` call. -/
structure RegistrarOutcome where
  ensureServiceCalled : Bool
  tgtAdminInvoked : Bool
  raised : Bool
  warnings : List String
deriving DecidableEq, Repr

/-- `update_targets_conf` from `boot_resources.py`: ensure the tgt service
runs, return silently if `<snapshot>/maas.tgt` does not exist
(LP:1655721), otherwise run `tgt-admin --update ALL`, downgrading an
`ExternalProcessError` to a logged warning.  `service_monitor.ensureService`
is not among the provided sources; modelled from the spec (§5: the bounded
wait for the daemon is a warning past the bound, never fatal).
`targetsFiles` lists the snapshot paths whose `maas.tgt` exists; a
`tgtAdminResult` of `Except.error e` is `tgt-admin` failing with an
`ExternalProcessError e`. -/
def update_targets_conf (targetsFiles : List String) (snapshot : String)
    (tgtAdminResult : Except String Unit) : RegistrarOutcome :=
  if targetsFiles.contains snapshot then
    match tgtAdminResult with
    | Except.ok _ => ⟨true, true, false, []⟩
    | Except.error e =>
      ⟨true, true, false, ["Unable to update TGT config: " ++ e]⟩
  else ⟨true, false, false, []⟩

/-- The region's catalog as the orchestrator consumes it:
`BootImageMapping` exposing `is_empty()` and `dump_json()`. -/
structure ImageDescriptions where
  is_empty : Bool
  dump_json : String
deriving DecidableEq, Repr

/-- Cache entries and reference pairs a downloader invocation created. -/
structure DownloadEffect where
  newCache : List String
  newRefs : List (String × String)
deriving DecidableEq, Repr

/-- Modelled from the spec: the outcome of `download_all_boot_resources`
(not among the provided sources).  It either raises after possibly leaving
a staging snapshot directory and cache entries behind, or returns the
path of the fully populated staging snapshot. -/
inductive DownloadOutcome where
  | failure (exc : String) (stagingDir : Option String) (eff : DownloadEffect)
  | success (snapshot_path : String) (eff : DownloadEffect)
deriving DecidableEq, Repr

/-- The behavior of the external collaborators during one run. -/
structure Behavior where
  descriptions : ImageDescriptions
  download : DownloadOutcome
  writeMetaOk : Bool
  writeTargetsOk : Bool
  bootloaderFailures : List String
deriving DecidableEq, Repr

/-- Observable steps of one `import_images` run. -/
inductive Event where
  | catalogFetched
  | downloaderCalled
  | metaWritten (snapshot : String)
  | targetsWritten (snapshot : String)
  | bootloaderError (methodName : String)
  | bootloadersLinked (snapshot : String)
  | symlinkUpdated (snapshot : String)
  | registrar (active : Option String)
  | cleanupCalled
deriving DecidableEq, Repr

/-- What `import_images` hands back to its caller: a normal return value
or a propagated exception. -/
inductive RunResult where
  | ok (imported : Bool)
  | exc (msg : String)
deriving DecidableEq, Repr

/-- The filesystem effect of a failed downloader invocation. -/
def applyDownloadFailure (w : World) (stagingDir : Option String)
    (eff : DownloadEffect) : World :=
  { w with snapshots := w.snapshots ++ stagingDir.toList
           cache := w.cache ++ eff.newCache
           cacheRefs := w.cacheRefs ++ eff.newRefs }

/-- The filesystem effect of a successful downloader invocation: the
staging snapshot directory exists and is fully populated. -/
def applyDownloadSuccess (w : World) (snapshot_path : String)
    (eff : DownloadEffect) : World :=
  { w with snapshots := w.snapshots ++ [snapshot_path]
           cache := w.cache ++ eff.newCache
           cacheRefs := w.cacheRefs ++ eff.newRefs }

/-- `import_images` from `boot_resources.py` as a state-and-trace
function.  `sources` only matters through emptiness (the keyring copies
are irrelevant to the storage root).  The `Event.registrar` events record
the invocations of `update_iscsi_targets`/`update_targets_conf`, carrying
the snapshot the given path resolves to at that moment; per
`update_targets_conf` above the registrar call never raises. -/
def import_images (sources : List Unit) (B : Behavior) (w : World)
    (now : Nat) : RunResult × World × List Event :=
  if sources.length = 0 then
    (RunResult.ok false, w, [])
  else
    let evs := [Event.catalogFetched]
    if B.descriptions.is_empty then
      (RunResult.ok false, w, evs ++ [Event.registrar w.current])
    else
      let meta_file_content := B.descriptions.dump_json
      let mc := meta_contains w meta_file_content now
      if mc.1 then
        (RunResult.ok false, mc.2, evs ++ [Event.registrar mc.2.current])
      else
        let w1 := mc.2
        match B.download with
        | DownloadOutcome.failure e stagingDir eff =>
          let w2 := applyDownloadFailure w1 stagingDir eff
          let w3 := cleanup_snapshots_and_cache w2
          (RunResult.exc e, w3,
            evs ++ [Event.downloaderCalled, Event.registrar w2.current,
                    Event.cleanupCalled])
        | DownloadOutcome.success snapshot_path eff =>
          let w2 := applyDownloadSuccess w1 snapshot_path eff
          if B.writeMetaOk then
            let w3 := write_snapshot_metadata w2 snapshot_path
              meta_file_content now
            if B.writeTargetsOk then
              let w4 := write_targets_conf w3 snapshot_path
              let linkEvs := B.bootloaderFailures.map Event.bootloaderError
              let w5 := update_current_symlink w4 snapshot_path
              let w6 := cleanup_snapshots_and_cache w5
              (RunResult.ok true, w6,
                evs ++ [Event.downloaderCalled,
                        Event.metaWritten snapshot_path,
                        Event.targetsWritten snapshot_path] ++ linkEvs ++
                       [Event.bootloadersLinked snapshot_path,
                        Event.symlinkUpdated snapshot_path,
                        Event.registrar w5.current,
                        Event.cleanupCalled])
            else
              (RunResult.exc "atomic_write maas.tgt failed", w3,
                evs ++ [Event.downloaderCalled,
                        Event.metaWritten snapshot_path])
          else
            (RunResult.exc "atomic_write maas.meta failed", w2,
              evs ++ [Event.downloaderCalled])

/-- The `root_image` path probed for a tuple. -/
def rootImagePath (snapshot_path : String) (t : TgtId) : String :=
  pathJoin (tgtBasePath snapshot_path t) "root-image"

/-- The `squashfs_image` path probed for a tuple. -/
def squashfsPath (snapshot_path : String) (t : TgtId) : String :=
  pathJoin (tgtBasePath snapshot_path t) "squashfs"

/-- The list of target stanzas the composed descriptor concatenates. -/
def targetsEntries (snapshot_path : String) (images : List BootImage)
    (isfile : String → Bool) : List String :=
  ((sortedTgtIds images).map (tupleEntries snapshot_path isfile)).flatten

/-- Strict ascending order on entry tuples. -/
def tgtIdLt (a b : TgtId) : Prop := a.key < b.key

theorem sortedTgtIds_sorted_lt (images : List BootImage) :
    List.Sorted tgtIdLt (sortedTgtIds images) := by
  have hs := sortedTgtIds_sorted images
  have hn := sortedTgtIds_nodup images
  exact hs.imp₂ (fun a b hle hne =>
    lt_of_le_of_ne hle (fun hk => hne (TgtId.key_injective hk))) hn

/-- Is an event a Target Registrar invocation? -/
def isRegistrarEvent : Event → Bool
  | Event.registrar _ => true
  | _ => false

/-- Number of Target Registrar invocations in a trace. -/
def registrarCount (t : List Event) : Nat :=
  (t.filter isRegistrarEvent).length

/-- Claim C1: the Change Detector (`meta_contains`) reports "unchanged"
(`true`) if and only if the current pointer exists and the active
snapshot's stored metadata record is byte-for-byte equal to the candidate
text; so a missing current pointer, a missing record, or any differing
record yields "changed" (`false`). -/
theorem meta_contains_iff_exact_match (w : World) (content : String)
    (now : Nat) :
    (meta_contains w content now).1 = true ↔
      ∃ s mf, w.current = some s ∧ w.metas.lookup s = some mf ∧
        mf.content = content := by
  cases hc : w.current with
  | none => simp [meta_contains, currentMetaFile, hc]
  | some s =>
    cases hm : w.metas.lookup s with
    | none => simp [meta_contains, currentMetaFile, hc, hm]
    | some mf =>
      simp only [meta_contains, currentMetaFile, hc, hm, beq_iff_eq]
      constructor
      · intro hb
        exact ⟨s, mf, rfl, hm, hb.symm⟩
      · rintro ⟨s', mf', hs', hm', hcnt⟩
        rw [Option.some.injEq] at hs'
        subst hs'
        rw [hm] at hm'
        rw [Option.some.injEq] at hm'
        subst hm'
        exact hcnt.symm

/-- Claim C5 as stated is false on the code: a snapshot holding both a
`root-image` and a `squashfs` backing file for one discovered tuple gets
two descriptor entries for that tuple, not one. -/
theorem targets_conf_two_entries_per_tuple :
    (sortedTgtIds [⟨"ubuntu", "amd64", "generic", "xenial", "daily"⟩]).length
      = 1 ∧
    (targetsEntries "/snap"
      [⟨"ubuntu", "amd64", "generic", "xenial", "daily"⟩]
      (fun p =>
        p == "/snap/ubuntu/amd64/generic/xenial/daily/root-image" ||
        p == "/snap/ubuntu/amd64/generic/xenial/daily/squashfs")).length
      = 2 ∧
    (targetsEntries "/snap"
      [⟨"ubuntu", "amd64", "generic", "xenial", "daily"⟩]
      (fun p =>
        p == "/snap/ubuntu/amd64/generic/xenial/daily/root-image" ||
        p == "/snap/ubuntu/amd64/generic/xenial/daily/squashfs")).length
      ≠ (sortedTgtIds [⟨"ubuntu", "amd64", "generic", "xenial", "daily"⟩]).length
    := by decide

/-- Claim C5 (amended): the descriptor is the concatenation, over the
distinct discovered tuples in ascending order, of one `tgt_entry` per
image kind (`root-image`, `squashfs`) whose backing file exists — so each
distinct tuple contributes between zero and two entries, and every entry
is the `tgt_entry` stanza of its tuple and existing backing path. -/
theorem targets_conf_entry_per_tuple_kind (snapshot_path : String)
    (images : List BootImage) (isfile : String → Bool) :
    compose_targets_conf snapshot_path images isfile =
      String.join (targetsEntries snapshot_path images isfile) ∧
    (targetsEntries snapshot_path images isfile).length =
      ((sortedTgtIds images).map (fun t =>
        (if isfile (rootImagePath snapshot_path t) then 1 else 0) +
        (if isfile (squashfsPath snapshot_path t) then 1 else 0))).sum ∧
    (∀ t ∈ sortedTgtIds images,
      isfile (rootImagePath snapshot_path t) = true →
      tgt_entry t.osystem t.arch t.subarch t.release t.label
          (rootImagePath snapshot_path t)
        ∈ targetsEntries snapshot_path images isfile) ∧
    (∀ t ∈ sortedTgtIds images,
      isfile (squashfsPath snapshot_path t) = true →
      tgt_entry t.osystem t.arch t.subarch t.release t.label
          (squashfsPath snapshot_path t)
        ∈ targetsEntries snapshot_path images isfile) ∧
    (∀ s ∈ targetsEntries snapshot_path images isfile,
      ∃ t ∈ sortedTgtIds images,
        (isfile (rootImagePath snapshot_path t) = true ∧
          s = tgt_entry t.osystem t.arch t.subarch t.release t.label
            (rootImagePath snapshot_path t)) ∨
        (isfile (squashfsPath snapshot_path t) = true ∧
          s = tgt_entry t.osystem t.arch t.subarch t.release t.label
            (squashfsPath snapshot_path t))) := by
  refine ⟨compose_targets_conf_eq snapshot_path images isfile, ?_, ?_, ?_, ?_⟩
  · unfold targetsEntries
    rw [List.length_flatten, List.map_map]
    congr 1
    apply List.map_congr_left
    intro t _
    simp only [Function.comp_apply, tupleEntries, rootImagePath, squashfsPath]
    by_cases h1 : isfile (pathJoin (tgtBasePath snapshot_path t) "root-image") <;>
      by_cases h2 : isfile (pathJoin (tgtBasePath snapshot_path t) "squashfs") <;>
      simp [h1, h2]
  · intro t ht hr
    unfold targetsEntries
    rw [List.mem_flatten]
    refine ⟨tupleEntries snapshot_path isfile t, List.mem_map_of_mem _ ht, ?_⟩
    simp [tupleEntries, rootImagePath, hr]
    exact Or.inl hr
  · intro t ht hs
    unfold targetsEntries
    rw [List.mem_flatten]
    refine ⟨tupleEntries snapshot_path isfile t, List.mem_map_of_mem _ ht, ?_⟩
    simp [tupleEntries, squashfsPath, hs]
    exact Or.inr hs
  · intro s hs
    unfold targetsEntries at hs
    rw [List.mem_flatten] at hs
    obtain ⟨l, hl, hsl⟩ := hs
    rw [List.mem_map] at hl
    obtain ⟨t, ht, rfl⟩ := hl
    refine ⟨t, ht, ?_⟩
    simp only [tupleEntries, rootImagePath, squashfsPath] at hsl ⊢
    by_cases h1 : isfile (pathJoin (tgtBasePath snapshot_path t) "root-image") <;>
      by_cases h2 : isfile (pathJoin (tgtBasePath snapshot_path t) "squashfs") <;>
      simp [h1, h2] at hsl ⊢ <;> tauto

/-- Witness for the amended C5 theorem at a concrete snapshot: one tuple
with both backing files present, one tuple with only `root-image`. -/
theorem targets_conf_entry_per_tuple_kind_witness :
    compose_targets_conf "/s"
        [⟨"u", "a", "g", "x", "d"⟩, ⟨"c", "a", "g", "y", "d"⟩]
        (fun p => p == "/s/u/a/g/x/d/root-image" ||
          p == "/s/u/a/g/x/d/squashfs" || p == "/s/c/a/g/y/d/root-image") =
      String.join (targetsEntries "/s"
        [⟨"u", "a", "g", "x", "d"⟩, ⟨"c", "a", "g", "y", "d"⟩]
        (fun p => p == "/s/u/a/g/x/d/root-image" ||
          p == "/s/u/a/g/x/d/squashfs" || p == "/s/c/a/g/y/d/root-image")) ∧
    (targetsEntries "/s"
        [⟨"u", "a", "g", "x", "d"⟩, ⟨"c", "a", "g", "y", "d"⟩]
        (fun p => p == "/s/u/a/g/x/d/root-image" ||
          p == "/s/u/a/g/x/d/squashfs" || p == "/s/c/a/g/y/d/root-image")).length
      = 3 := by
  refine ⟨(targets_conf_entry_per_tuple_kind "/s"
    [⟨"u", "a", "g", "x", "d"⟩, ⟨"c", "a", "g", "y", "d"⟩]
    (fun p => p == "/s/u/a/g/x/d/root-image" ||
      p == "/s/u/a/g/x/d/squashfs" || p == "/s/c/a/g/y/d/root-image")).1, ?_⟩
  decide

/-- Claim C7: descriptor generation is deterministic: two image listings
presenting the same set of identifying tuples (duplicates and listing
order immaterial) compose byte-identical descriptor text, whose entries
follow the strictly ascending order of the tuples. -/
theorem compose_targets_conf_deterministic (snapshot_path : String)
    (l1 l2 : List BootImage) (isfile : String → Bool)
    (h : (l1.map BootImage.tgtId).toFinset =
      (l2.map BootImage.tgtId).toFinset) :
    compose_targets_conf snapshot_path l1 isfile =
      compose_targets_conf snapshot_path l2 isfile ∧
    List.Sorted tgtIdLt (sortedTgtIds l1) := by
  have hmem : ∀ t : TgtId,
      t ∈ l1.map BootImage.tgtId ↔ t ∈ l2.map BootImage.tgtId := by
    intro t
    rw [← List.mem_toFinset, h, List.mem_toFinset]
  refine ⟨?_, sortedTgtIds_sorted_lt l1⟩
  rw [compose_targets_conf_eq, compose_targets_conf_eq,
    sortedTgtIds_eq_of_mem_iff hmem]

/-- Witness for C7: a duplicated, reordered listing of the same two
tuples composes the same text as the plain listing. -/
theorem compose_targets_conf_deterministic_witness :
    (([⟨"u", "a", "g", "x", "d"⟩, ⟨"c", "a", "g", "y", "d"⟩,
        ⟨"u", "a", "g", "x", "d"⟩] : List BootImage).map
          BootImage.tgtId).toFinset =
      (([⟨"c", "a", "g", "y", "d"⟩, ⟨"u", "a", "g", "x", "d"⟩] :
        List BootImage).map BootImage.tgtId).toFinset ∧
    (compose_targets_conf "/s"
        [⟨"u", "a", "g", "x", "d"⟩, ⟨"c", "a", "g", "y", "d"⟩,
          ⟨"u", "a", "g", "x", "d"⟩] (fun p => p == "/s/u/a/g/x/d/root-image") =
      compose_targets_conf "/s"
        [⟨"c", "a", "g", "y", "d"⟩, ⟨"u", "a", "g", "x", "d"⟩]
        (fun p => p == "/s/u/a/g/x/d/root-image") ∧
    List.Sorted tgtIdLt (sortedTgtIds
      [⟨"u", "a", "g", "x", "d"⟩, ⟨"c", "a", "g", "y", "d"⟩,
        ⟨"u", "a", "g", "x", "d"⟩])) :=
  ⟨by decide, compose_targets_conf_deterministic "/s"
    [⟨"u", "a", "g", "x", "d"⟩, ⟨"c", "a", "g", "y", "d"⟩,
      ⟨"u", "a", "g", "x", "d"⟩]
    [⟨"c", "a", "g", "y", "d"⟩, ⟨"u", "a", "g", "x", "d"⟩]
    (fun p => p == "/s/u/a/g/x/d/root-image") (by decide)⟩

theorem touchCurrentMeta_current (w : World) (now : Nat) :
    (touchCurrentMeta w now).current = w.current := by
  unfold touchCurrentMeta
  cases hc : w.current
  · exact hc
  · rfl

theorem meta_contains_true_snd {w : World} {c : String} {now : Nat}
    (h : (meta_contains w c now).1 = true) :
    (meta_contains w c now).2 = touchCurrentMeta w now := by
  unfold meta_contains at h ⊢
  cases hcm : currentMetaFile w
  · rw [hcm] at h
    cases h
  · rfl

theorem meta_contains_snd_current (w : World) (c : String) (now : Nat) :
    (meta_contains w c now).2.current = w.current := by
  unfold meta_contains
  cases currentMetaFile w
  · rfl
  · exact touchCurrentMeta_current w now

theorem touchCurrentMeta_frame (w : World) (now : Nat) :
    (touchCurrentMeta w now).snapshots = w.snapshots ∧
    (touchCurrentMeta w now).current = w.current ∧
    (touchCurrentMeta w now).targets = w.targets ∧
    (touchCurrentMeta w now).cache = w.cache ∧
    (touchCurrentMeta w now).cacheRefs = w.cacheRefs := by
  unfold touchCurrentMeta
  cases hc : w.current <;> simp [hc]

theorem meta_contains_snd_frame (w : World) (c : String) (now : Nat) :
    (meta_contains w c now).2.snapshots = w.snapshots ∧
    (meta_contains w c now).2.current = w.current ∧
    (meta_contains w c now).2.targets = w.targets ∧
    (meta_contains w c now).2.cache = w.cache ∧
    (meta_contains w c now).2.cacheRefs = w.cacheRefs := by
  unfold meta_contains
  cases currentMetaFile w
  · exact ⟨rfl, rfl, rfl, rfl, rfl⟩
  · exact touchCurrentMeta_frame w now

/-- Claim C6: on "unchanged" the orchestrator re-runs the Target
Registrar against the existing active snapshot and terminates the run
successfully; the downloader, the committer's writes, the pointer update
and the pruning all stay uninvoked — the whole run is the catalog fetch,
the registrar re-application and the timestamp touch of the current
metadata record. -/
theorem unchanged_reapplies_registrar_only (sources : List Unit)
    (B : Behavior) (w : World) (now : Nat)
    (hs : sources.length ≠ 0)
    (hne : B.descriptions.is_empty = false)
    (hun : (meta_contains w B.descriptions.dump_json now).1 = true) :
    import_images sources B w now =
      (RunResult.ok false, touchCurrentMeta w now,
        [Event.catalogFetched, Event.registrar w.current]) := by
  have h2 := meta_contains_true_snd hun
  unfold import_images
  simp [hs, hne, hun, h2, touchCurrentMeta_current]

/-- Witness for C6 at a concrete one-snapshot world whose stored record
matches the candidate. -/
theorem unchanged_reapplies_registrar_only_witness :
    ([()] : List Unit).length ≠ 0 ∧
    (⟨false, "m"⟩ : ImageDescriptions).is_empty = false ∧
    (meta_contains ⟨["s1"], some "s1", [("s1", ⟨"m", 0⟩)], ["s1"], [], []⟩
      "m" 7).1 = true ∧
    import_images [()]
        ⟨⟨false, "m"⟩, DownloadOutcome.success "s2" ⟨[], []⟩, true, true, []⟩
        ⟨["s1"], some "s1", [("s1", ⟨"m", 0⟩)], ["s1"], [], []⟩ 7 =
      (RunResult.ok false,
        touchCurrentMeta ⟨["s1"], some "s1", [("s1", ⟨"m", 0⟩)], ["s1"], [], []⟩ 7,
        [Event.catalogFetched, Event.registrar (some "s1")]) :=
  ⟨by decide, by decide, by decide,
    unchanged_reapplies_registrar_only [()]
      ⟨⟨false, "m"⟩, DownloadOutcome.success "s2" ⟨[], []⟩, true, true, []⟩
      ⟨["s1"], some "s1", [("s1", ⟨"m", 0⟩)], ["s1"], [], []⟩ 7
      (by decide) (by decide) (by decide)⟩

/-- Claim C8: when the target daemon rejects the reload (`tgt-admin`
fails with an `ExternalProcessError`), `update_targets_conf` logs one
warning and returns normally: nothing is raised, so the registrar step
cannot abort the pipeline, and the function has no storage effect at all
(in particular the current pointer is untouched). -/
theorem update_targets_conf_reload_failure_is_warning
    (targetsFiles : List String) (snapshot : String) (e : String)
    (h : targetsFiles.contains snapshot = true) :
    update_targets_conf targetsFiles snapshot (Except.error e) =
      ⟨true, true, false, ["Unable to update TGT config: " ++ e]⟩ := by
  have h' : snapshot ∈ targetsFiles := by simpa using h
  simp [update_targets_conf, h']

/-- Witness for C8 with a present descriptor and a failing reload. -/
theorem update_targets_conf_reload_failure_is_warning_witness :
    (["s1"] : List String).contains "s1" = true ∧
    update_targets_conf ["s1"] "s1" (Except.error "boom") =
      ⟨true, true, false, ["Unable to update TGT config: boom"]⟩ :=
  ⟨by decide,
    update_targets_conf_reload_failure_is_warning ["s1"] "s1" "boom"
      (by decide)⟩

/-- Claim C9: when the snapshot's `maas.tgt` descriptor does not exist,
`update_targets_conf` skips the daemon reconciliation (`tgt-admin` is
never invoked) and returns without error or warning, whatever the daemon
would have answered. -/
theorem update_targets_conf_missing_descriptor_skips
    (targetsFiles : List String) (snapshot : String)
    (adm : Except String Unit)
    (h : targetsFiles.contains snapshot = false) :
    update_targets_conf targetsFiles snapshot adm =
      ⟨true, false, false, []⟩ := by
  have h' : snapshot ∉ targetsFiles := by simpa using h
  simp [update_targets_conf, h']

/-- Witness for C9 at a snapshot with no descriptor and a daemon that
would have failed. -/
theorem update_targets_conf_missing_descriptor_skips_witness :
    (["s1"] : List String).contains "s2" = false ∧
    update_targets_conf ["s1"] "s2" (Except.error "down") =
      ⟨true, false, false, []⟩ :=
  ⟨by decide,
    update_targets_conf_missing_descriptor_skips ["s1"] "s2"
      (Except.error "down") (by decide)⟩

/-- Claim C10: called with an empty sources list, `import_images` returns
`False` at once: the catalog is not fetched, the storage root is returned
unchanged, and the event trace is empty — in particular, unlike the
empty-catalog branch, the Target Registrar is not re-run. -/
theorem import_images_empty_sources (B : Behavior) (w : World) (now : Nat) :
    import_images [] B w now = (RunResult.ok false, w, []) := rfl

theorem import_images_download_failure (sources : List Unit) (B : Behavior)
    (w : World) (now : Nat) {e : String} {sd : Option String}
    {eff : DownloadEffect}
    (hs : sources.length ≠ 0)
    (hne : B.descriptions.is_empty = false)
    (hch : (meta_contains w B.descriptions.dump_json now).1 = false)
    (hdl : B.download = DownloadOutcome.failure e sd eff) :
    import_images sources B w now =
      (RunResult.exc e,
       cleanup_snapshots_and_cache (applyDownloadFailure
         (meta_contains w B.descriptions.dump_json now).2 sd eff),
       [Event.catalogFetched, Event.downloaderCalled,
        Event.registrar w.current, Event.cleanupCalled]) := by
  unfold import_images
  simp [hs, hne, hch, hdl, applyDownloadFailure, meta_contains_snd_current]

theorem import_images_write_meta_failure (sources : List Unit)
    (B : Behavior) (w : World) (now : Nat) {snap : String}
    {eff : DownloadEffect}
    (hs : sources.length ≠ 0)
    (hne : B.descriptions.is_empty = false)
    (hch : (meta_contains w B.descriptions.dump_json now).1 = false)
    (hdl : B.download = DownloadOutcome.success snap eff)
    (hwm : B.writeMetaOk = false) :
    import_images sources B w now =
      (RunResult.exc "atomic_write maas.meta failed",
       applyDownloadSuccess (meta_contains w B.descriptions.dump_json now).2
         snap eff,
       [Event.catalogFetched, Event.downloaderCalled]) := by
  unfold import_images
  simp [hs, hne, hch, hdl, hwm]

theorem import_images_write_targets_failure (sources : List Unit)
    (B : Behavior) (w : World) (now : Nat) {snap : String}
    {eff : DownloadEffect}
    (hs : sources.length ≠ 0)
    (hne : B.descriptions.is_empty = false)
    (hch : (meta_contains w B.descriptions.dump_json now).1 = false)
    (hdl : B.download = DownloadOutcome.success snap eff)
    (hwm : B.writeMetaOk = true)
    (hwt : B.writeTargetsOk = false) :
    import_images sources B w now =
      (RunResult.exc "atomic_write maas.tgt failed",
       write_snapshot_metadata
         (applyDownloadSuccess (meta_contains w B.descriptions.dump_json now).2
           snap eff) snap B.descriptions.dump_json now,
       [Event.catalogFetched, Event.downloaderCalled,
        Event.metaWritten snap]) := by
  unfold import_images
  simp [hs, hne, hch, hdl, hwm, hwt]

theorem import_images_commit_success (sources : List Unit)
    (B : Behavior) (w : World) (now : Nat) {snap : String}
    {eff : DownloadEffect}
    (hs : sources.length ≠ 0)
    (hne : B.descriptions.is_empty = false)
    (hch : (meta_contains w B.descriptions.dump_json now).1 = false)
    (hdl : B.download = DownloadOutcome.success snap eff)
    (hwm : B.writeMetaOk = true)
    (hwt : B.writeTargetsOk = true) :
    import_images sources B w now =
      (RunResult.ok true,
       cleanup_snapshots_and_cache (update_current_symlink
         (write_targets_conf (write_snapshot_metadata
           (applyDownloadSuccess
             (meta_contains w B.descriptions.dump_json now).2 snap eff)
           snap B.descriptions.dump_json now) snap) snap),
       [Event.catalogFetched, Event.downloaderCalled,
        Event.metaWritten snap, Event.targetsWritten snap] ++
       B.bootloaderFailures.map Event.bootloaderError ++
       [Event.bootloadersLinked snap, Event.symlinkUpdated snap,
        Event.registrar (some snap), Event.cleanupCalled]) := by
  unfold import_images
  simp [hs, hne, hch, hdl, hwm, hwt, update_current_symlink]

theorem bootloaderErrors_no_registrar (l : List String) :
    (l.map Event.bootloaderError).filter isRegistrarEvent = [] := by
  induction l with
  | nil => rfl
  | cons a l ih => simp [isRegistrarEvent, ih]

theorem applyDownloadSuccess_current (w : World) (snap : String)
    (eff : DownloadEffect) :
    (applyDownloadSuccess w snap eff).current = w.current := rfl

theorem applyDownloadSuccess_snapshots (w : World) (snap : String)
    (eff : DownloadEffect) :
    (applyDownloadSuccess w snap eff).snapshots = w.snapshots ++ [snap] := rfl

theorem write_snapshot_metadata_current (w : World) (s c : String)
    (now : Nat) : (write_snapshot_metadata w s c now).current = w.current :=
  rfl

theorem write_snapshot_metadata_snapshots (w : World) (s c : String)
    (now : Nat) :
    (write_snapshot_metadata w s c now).snapshots = w.snapshots := rfl

/-- Claim C3 (amended): a failure writing the metadata record or the
target descriptor (commit steps 2 and 3) aborts the run, propagating the
exception and leaving the current pointer untouched — but, contrary to
the claim, the staging directory stays on disk, no cache purge runs, and
the Target Registrar is not invoked at all in that run; and a
bootloader-linking failure (step 4) is caught per loader, so it never
aborts the commit. -/
theorem commit_write_failure_no_cleanup_no_registrar (sources : List Unit)
    (B : Behavior) (w : World) (now : Nat) (snap : String)
    (eff : DownloadEffect)
    (hs : sources.length ≠ 0)
    (hne : B.descriptions.is_empty = false)
    (hch : (meta_contains w B.descriptions.dump_json now).1 = false)
    (hdl : B.download = DownloadOutcome.success snap eff) :
    (B.writeMetaOk = false ∨ B.writeTargetsOk = false →
      (∃ msg, (import_images sources B w now).1 = RunResult.exc msg) ∧
      (import_images sources B w now).2.1.current = w.current ∧
      snap ∈ (import_images sources B w now).2.1.snapshots ∧
      registrarCount (import_images sources B w now).2.2 = 0 ∧
      Event.cleanupCalled ∉ (import_images sources B w now).2.2 ∧
      Event.symlinkUpdated snap ∉ (import_images sources B w now).2.2) ∧
    (B.writeMetaOk = true → B.writeTargetsOk = true →
      (import_images sources B w now).1 = RunResult.ok true) := by
  constructor
  · intro hw
    cases hwm : B.writeMetaOk with
    | false =>
      rw [import_images_write_meta_failure sources B w now hs hne hch hdl hwm]
      refine ⟨⟨"atomic_write maas.meta failed", rfl⟩, ?_, ?_, rfl, ?_, ?_⟩
      · rw [applyDownloadSuccess_current, meta_contains_snd_current]
      · rw [applyDownloadSuccess_snapshots]
        simp
      · simp
      · simp
    | true =>
      have hwt : B.writeTargetsOk = false := by
        rcases hw with h | h
        · rw [hwm] at h
          cases h
        · exact h
      rw [import_images_write_targets_failure sources B w now hs hne hch hdl
        hwm hwt]
      refine ⟨⟨"atomic_write maas.tgt failed", rfl⟩, ?_, ?_, rfl, ?_, ?_⟩
      · rw [write_snapshot_metadata_current, applyDownloadSuccess_current,
          meta_contains_snd_current]
      · rw [write_snapshot_metadata_snapshots, applyDownloadSuccess_snapshots]
        simp
      · simp
      · simp
  · intro hwm hwt
    rw [import_images_commit_success sources B w now hs hne hch hdl hwm hwt]

/-- Claim C3 as stated is false on the code: at a concrete run whose
metadata write fails, the failure is propagated, yet the staging snapshot
`snap-2` is still present afterwards, no cleanup ran, and the Target
Registrar was never invoked. -/
theorem commit_write_failure_counterexample :
    (import_images [()]
      ⟨⟨false, "new"⟩, DownloadOutcome.success "snap-2" ⟨[], []⟩,
        false, true, []⟩
      ⟨["snap-1"], some "snap-1", [("snap-1", ⟨"old", 0⟩)], ["snap-1"],
        [], []⟩ 1).1 = RunResult.exc "atomic_write maas.meta failed" ∧
    "snap-2" ∈ (import_images [()]
      ⟨⟨false, "new"⟩, DownloadOutcome.success "snap-2" ⟨[], []⟩,
        false, true, []⟩
      ⟨["snap-1"], some "snap-1", [("snap-1", ⟨"old", 0⟩)], ["snap-1"],
        [], []⟩ 1).2.1.snapshots ∧
    registrarCount (import_images [()]
      ⟨⟨false, "new"⟩, DownloadOutcome.success "snap-2" ⟨[], []⟩,
        false, true, []⟩
      ⟨["snap-1"], some "snap-1", [("snap-1", ⟨"old", 0⟩)], ["snap-1"],
        [], []⟩ 1).2.2 = 0 ∧
    Event.cleanupCalled ∉ (import_images [()]
      ⟨⟨false, "new"⟩, DownloadOutcome.success "snap-2" ⟨[], []⟩,
        false, true, []⟩
      ⟨["snap-1"], some "snap-1", [("snap-1", ⟨"old", 0⟩)], ["snap-1"],
        [], []⟩ 1).2.2 := by decide

/-- Witness for the amended C3 theorem at a concrete failing-write run. -/
theorem commit_write_failure_no_cleanup_no_registrar_witness :
    ([()] : List Unit).length ≠ 0 ∧
    (⟨false, "new"⟩ : ImageDescriptions).is_empty = false ∧
    (meta_contains
      ⟨["snap-1"], some "snap-1", [("snap-1", ⟨"old", 0⟩)], ["snap-1"],
        [], []⟩ "new" 1).1 = false ∧
    ((⟨⟨false, "new"⟩, DownloadOutcome.success "snap-9" ⟨[], []⟩,
        true, false, []⟩ : Behavior).writeMetaOk = false ∨
      (⟨⟨false, "new"⟩, DownloadOutcome.success "snap-9" ⟨[], []⟩,
        true, false, []⟩ : Behavior).writeTargetsOk = false) ∧
    registrarCount (import_images [()]
      ⟨⟨false, "new"⟩, DownloadOutcome.success "snap-9" ⟨[], []⟩,
        true, false, []⟩
      ⟨["snap-1"], some "snap-1", [("snap-1", ⟨"old", 0⟩)], ["snap-1"],
        [], []⟩ 1).2.2 = 0 :=
  ⟨by decide, by decide, by decide, by decide,
    ((commit_write_failure_no_cleanup_no_registrar [()]
      ⟨⟨false, "new"⟩, DownloadOutcome.success "snap-9" ⟨[], []⟩,
        true, false, []⟩
      ⟨["snap-1"], some "snap-1", [("snap-1", ⟨"old", 0⟩)], ["snap-1"],
        [], []⟩ 1 "snap-9" ⟨[], []⟩
      (by decide) (by decide) (by decide) (by decide)).1
      (by decide)).2.2.2.1⟩

/-- Claim C4 (amended): in every run that reaches the staging phase at
most one Target Registrar invocation occurs, and exactly one occurs if
and only if either the downloader failed (invocation against the
still-current previous snapshot) or both commit writes succeeded
(invocation against the new snapshot); when the metadata or descriptor
write raises, no registrar invocation occurs at all. -/
theorem registrar_at_most_once (sources : List Unit) (B : Behavior)
    (w : World) (now : Nat)
    (hs : sources.length ≠ 0)
    (hne : B.descriptions.is_empty = false)
    (hch : (meta_contains w B.descriptions.dump_json now).1 = false) :
    registrarCount (import_images sources B w now).2.2 ≤ 1 ∧
    (registrarCount (import_images sources B w now).2.2 = 1 ↔
      ((∃ e sd eff, B.download = DownloadOutcome.failure e sd eff) ∨
       (B.writeMetaOk = true ∧ B.writeTargetsOk = true))) ∧
    (∀ e sd eff, B.download = DownloadOutcome.failure e sd eff →
      Event.registrar w.current ∈ (import_images sources B w now).2.2) ∧
    (∀ snap eff, B.download = DownloadOutcome.success snap eff →
      B.writeMetaOk = true → B.writeTargetsOk = true →
      Event.registrar (some snap) ∈ (import_images sources B w now).2.2) := by
  cases hdl : B.download with
  | failure e sd eff =>
    rw [import_images_download_failure sources B w now hs hne hch hdl]
    refine ⟨by simp [registrarCount, isRegistrarEvent], ?_, ?_, ?_⟩
    · exact ⟨fun _ => Or.inl ⟨e, sd, eff, rfl⟩,
        fun _ => by simp [registrarCount, isRegistrarEvent]⟩
    · intro e' sd' eff' _
      simp
    · intro snap' eff' h _ _
      cases h
  | success snap eff =>
    cases hwm : B.writeMetaOk with
    | false =>
      rw [import_images_write_meta_failure sources B w now hs hne hch hdl hwm]
      refine ⟨by simp [registrarCount, isRegistrarEvent], ?_, ?_, ?_⟩
      · constructor
        · intro h
          cases h
        · rintro (⟨e', sd', eff', h⟩ | ⟨h, -⟩)
          · cases h
          · cases h
      · intro e' sd' eff' h
        cases h
      · intro snap' eff' _ h _
        cases h
    | true =>
      cases hwt : B.writeTargetsOk with
      | false =>
        rw [import_images_write_targets_failure sources B w now hs hne hch
          hdl hwm hwt]
        refine ⟨by simp [registrarCount, isRegistrarEvent], ?_, ?_, ?_⟩
        · constructor
          · intro h
            cases h
          · rintro (⟨e', sd', eff', h⟩ | ⟨-, h⟩)
            · cases h
            · cases h
        · intro e' sd' eff' h
          cases h
        · intro snap' eff' _ _ h
          cases h
      | true =>
        rw [import_images_commit_success sources B w now hs hne hch hdl
          hwm hwt]
        refine ⟨?_, ?_, ?_, ?_⟩
        · simp [registrarCount, isRegistrarEvent, List.filter_append,
            bootloaderErrors_no_registrar]
        · refine ⟨fun _ => Or.inr ⟨rfl, rfl⟩, fun _ => ?_⟩
          simp [registrarCount, isRegistrarEvent, List.filter_append,
            bootloaderErrors_no_registrar]
        · intro e' sd' eff' h
          cases h
        · intro snap' eff' h _ _
          injection h with h1 h2
          subst h1
          simp

/-- Claim C4 as stated is false on the code: at a concrete run that
reaches staging (the downloader ran) and whose descriptor write fails,
neither of the two Target Registrar invocations occurs. -/
theorem registrar_skipped_counterexample :
    Event.downloaderCalled ∈ (import_images [()]
      ⟨⟨false, "new"⟩, DownloadOutcome.success "snap-3" ⟨[], []⟩,
        true, false, []⟩
      ⟨["snap-1"], some "snap-1", [("snap-1", ⟨"old", 0⟩)], ["snap-1"],
        [], []⟩ 1).2.2 ∧
    registrarCount (import_images [()]
      ⟨⟨false, "new"⟩, DownloadOutcome.success "snap-3" ⟨[], []⟩,
        true, false, []⟩
      ⟨["snap-1"], some "snap-1", [("snap-1", ⟨"old", 0⟩)], ["snap-1"],
        [], []⟩ 1).2.2 = 0 := by decide

/-- Witness for the amended C4 theorem at a concrete failed-download
run. -/
theorem registrar_at_most_once_witness :
    ([()] : List Unit).length ≠ 0 ∧
    (⟨false, "new"⟩ : ImageDescriptions).is_empty = false ∧
    (meta_contains
      ⟨["snap-1"], some "snap-1", [("snap-1", ⟨"old", 0⟩)], ["snap-1"],
        [], []⟩ "new" 1).1 = false ∧
    registrarCount (import_images [()]
      ⟨⟨false, "new"⟩, DownloadOutcome.failure "boom" (some "snap-2") ⟨[], []⟩,
        true, true, []⟩
      ⟨["snap-1"], some "snap-1", [("snap-1", ⟨"old", 0⟩)], ["snap-1"],
        [], []⟩ 1).2.2 ≤ 1 :=
  ⟨by decide, by decide, by decide,
    (registrar_at_most_once [()]
      ⟨⟨false, "new"⟩, DownloadOutcome.failure "boom" (some "snap-2") ⟨[], []⟩,
        true, true, []⟩
      ⟨["snap-1"], some "snap-1", [("snap-1", ⟨"old", 0⟩)], ["snap-1"],
        [], []⟩ 1 (by decide) (by decide) (by decide)).1⟩

/-- Claim C2 as stated is false on the code: with a stale extra snapshot
on disk before the run, the failure-path cleanup prunes that stale
snapshot too, so the storage root does not hold "exactly the same set of
Snapshots" afterwards. -/
theorem download_failure_prunes_stale_counterexample :
    "snap-0" ∈ (⟨["snap-1", "snap-0"], some "snap-1",
      [("snap-1", ⟨"old", 0⟩)], ["snap-1"], [], []⟩ : World).snapshots ∧
    (import_images [()]
      ⟨⟨false, "new"⟩, DownloadOutcome.failure "boom" (some "snap-2") ⟨[], []⟩,
        true, true, []⟩
      ⟨["snap-1", "snap-0"], some "snap-1", [("snap-1", ⟨"old", 0⟩)],
        ["snap-1"], [], []⟩ 1).1 = RunResult.exc "boom" ∧
    "snap-0" ∉ (import_images [()]
      ⟨⟨false, "new"⟩, DownloadOutcome.failure "boom" (some "snap-2") ⟨[], []⟩,
        true, true, []⟩
      ⟨["snap-1", "snap-0"], some "snap-1", [("snap-1", ⟨"old", 0⟩)],
        ["snap-1"], [], []⟩ 1).2.1.snapshots := by decide

/-- Claim C2 (amended): if the downloader raises, the failure is
propagated, the current pointer is unchanged, the currently active
snapshot survives, the snapshot and cache sets only shrink (the staging
directory and any cache entries created for it are purged, and no new
entries remain), and within the run the Target Registrar is re-applied
against the previously active snapshot. -/
theorem download_failure_rollback (sources : List Unit) (B : Behavior)
    (w : World) (now : Nat) (e : String) (sd : Option String)
    (eff : DownloadEffect)
    (hs : sources.length ≠ 0)
    (hne : B.descriptions.is_empty = false)
    (hch : (meta_contains w B.descriptions.dump_json now).1 = false)
    (hdl : B.download = DownloadOutcome.failure e sd eff)
    (hsd : ∀ s, sd = some s → w.current ≠ some s)
    (hcfresh : ∀ c ∈ eff.newCache, ∀ p ∈ w.cacheRefs, p.1 ≠ c)
    (hrefs : ∀ p ∈ eff.newRefs, w.current ≠ some p.2) :
    (import_images sources B w now).1 = RunResult.exc e ∧
    (import_images sources B w now).2.1.current = w.current ∧
    (import_images sources B w now).2.1.snapshots ⊆ w.snapshots ∧
    (∀ s, w.current = some s → s ∈ w.snapshots →
      s ∈ (import_images sources B w now).2.1.snapshots) ∧
    (import_images sources B w now).2.1.cache ⊆ w.cache ∧
    Event.registrar w.current ∈ (import_images sources B w now).2.2 := by
  obtain ⟨hsn, hcur, htg, hca, hcr⟩ :=
    meta_contains_snd_frame w B.descriptions.dump_json now
  rw [import_images_download_failure sources B w now hs hne hch hdl]
  refine ⟨rfl, ?_, ?_, ?_, ?_, by simp⟩
  · show (applyDownloadFailure
      (meta_contains w B.descriptions.dump_json now).2 sd eff).current
      = w.current
    exact hcur
  · intro s hs'
    simp only [cleanup_snapshots_and_cache, applyDownloadFailure,
      List.mem_filter, List.mem_append, hsn, hcur] at hs'
    obtain ⟨hmem, hbeq⟩ := hs'
    have hcs : w.current = some s := by simpa using hbeq
    rcases hmem with h | h
    · exact h
    · exfalso
      have hss : sd = some s := by
        cases sd with
        | none => cases h
        | some x =>
          simp only [Option.toList_some, List.mem_singleton] at h
          rw [h]
      exact hsd s hss hcs
  · intro s hcs hmem
    simp only [cleanup_snapshots_and_cache, applyDownloadFailure,
      List.mem_filter, List.mem_append, hsn, hcur]
    exact ⟨Or.inl hmem, by simpa using hcs⟩
  · intro c hc
    simp only [cleanup_snapshots_and_cache, applyDownloadFailure,
      List.mem_filter, List.mem_append, List.any_eq_true, hca, hcr, hcur,
      hsn] at hc
    obtain ⟨hmem, p, hp, hpc⟩ := hc
    have hpc' : p.1 = c := by simpa using hpc
    obtain ⟨hpmem, hpkeep⟩ := hp
    have hpk : w.current = some p.2 := by
      have h2 : p.2 ∈ (w.snapshots ++ sd.toList).filter
          (fun s => w.current == some s) := by simpa using hpkeep
      rw [List.mem_filter] at h2
      simpa using h2.2
    rcases hmem with h | h
    · exact h
    · exfalso
      rcases hpmem with hq | hq
      · exact hcfresh c h p hq hpc'
      · exact hrefs p hq hpk

/-- Witness for the amended C2 theorem at a concrete failed-download
run that left a staging directory behind. -/
theorem download_failure_rollback_witness :
    ([()] : List Unit).length ≠ 0 ∧
    (⟨false, "new"⟩ : ImageDescriptions).is_empty = false ∧
    (meta_contains
      ⟨["snap-1"], some "snap-1", [("snap-1", ⟨"old", 0⟩)], ["snap-1"],
        ["c1"], [("c1", "snap-1")]⟩ "new" 1).1 = false ∧
    (import_images [()]
      ⟨⟨false, "new"⟩, DownloadOutcome.failure "boom" (some "snap-2") ⟨[], []⟩,
        true, true, []⟩
      ⟨["snap-1"], some "snap-1", [("snap-1", ⟨"old", 0⟩)], ["snap-1"],
        ["c1"], [("c1", "snap-1")]⟩ 1).1 = RunResult.exc "boom" ∧
    (import_images [()]
      ⟨⟨false, "new"⟩, DownloadOutcome.failure "boom" (some "snap-2") ⟨[], []⟩,
        true, true, []⟩
      ⟨["snap-1"], some "snap-1", [("snap-1", ⟨"old", 0⟩)], ["snap-1"],
        ["c1"], [("c1", "snap-1")]⟩ 1).2.1.current = some "snap-1" :=
  ⟨by decide, by decide, by decide,
    (download_failure_rollback [()]
      ⟨⟨false, "new"⟩, DownloadOutcome.failure "boom" (some "snap-2") ⟨[], []⟩,
        true, true, []⟩
      ⟨["snap-1"], some "snap-1", [("snap-1", ⟨"old", 0⟩)], ["snap-1"],
        ["c1"], [("c1", "snap-1")]⟩ 1 "boom" (some "snap-2") ⟨[], []⟩
      (by decide) (by decide) (by decide) (by decide) (by simp)
      (by simp) (by simp)).1,
    (download_failure_rollback [()]
      ⟨⟨false, "new"⟩, DownloadOutcome.failure "boom" (some "snap-2") ⟨[], []⟩,
        true, true, []⟩
      ⟨["snap-1"], some "snap-1", [("snap-1", ⟨"old", 0⟩)], ["snap-1"],
        ["c1"], [("c1", "snap-1")]⟩ 1 "boom" (some "snap-2") ⟨[], []⟩
      (by decide) (by decide) (by decide) (by decide) (by simp)
      (by simp) (by simp)).2.1⟩

end MaasImport
